import Mathlib

/-!
# observation-zones: the scene builders and the rebuild cycle of `src/main.js`

The program draws a cone, a spiral line around it and one marker group
("observation zone") at every fifth sample of the spiral; two sliders
rebuild everything.

Embedding.

* Numbers.  JavaScript numbers are modelled by a field `α`; the three members
  of the host `Math` object the source uses (`PI`, `cos`, `sin`) are passed
  as a record `JsMath α`.  All definitions are generic and computable; the
  numeric theorems instantiate `α := ℝ` with `Real.pi`, `Real.cos`,
  `Real.sin`, i.e. they read the arithmetic as exact real arithmetic.
* Objects.  Every `new THREE.X(...)` of a geometry, material or scene object
  takes the next identity from a counter (`nextId`); `Vector3` is a value.
* Scene graph.  `scene.children` is a list of objects, `add` pushes (after
  detaching an earlier occurrence), `remove` deletes the first occurrence of
  the object, `dispose()` is recorded in a log of disposed identities.
* Module state.  The three `let` handles `cone, line, observationZones`
  are `Option`s (`none` = `undefined`); reading a property of `undefined`
  is the error `JsError.typeError`.
-/

namespace ObservationZones

/-! ## Data model -/

/-- Value of a `THREE.Vector3`. -/
structure Vector3 (α : Type) where
  x : α
  y : α
  z : α

/-- The members of the host `Math` object the source reads. -/
structure JsMath (α : Type) where
  PI : α
  cos : α → α
  sin : α → α

/-- The `options` object bound to the two sliders. -/
structure Options (α : Type) where
  coneHeight : α
  coneBaseRadius : α

/-- Constructor arguments of the geometries the program creates. -/
inductive Shape (α : Type) where
  | cone (radius height : α) (radialSegments : Nat)
  | sphere (radius : α) (widthSegments heightSegments : Nat)
  | plane (width height : α)
  | buffer (points : List (Vector3 α))
  | axes (size : α)

/-- A geometry object: its identity and what it was constructed from. -/
structure Geometry (α : Type) where
  id : Nat
  shape : Shape α

/-- Constructor arguments of the materials the program creates. -/
inductive MaterialKind (α : Type) where
  | meshBasic (color : Nat)
  | lineBasic (color : Nat)
  | meshPhong (color : Nat) (opacity : α) (transparent : Bool) (doubleSide : Bool)
  | axesColors

/-- A material object: its identity and what it was constructed from. -/
structure Material (α : Type) where
  id : Nat
  kind : MaterialKind α

/-- A `THREE.Mesh`; `lookAt` records the target of a `lookAt(...)` call. -/
structure Mesh (α : Type) where
  id : Nat
  geometry : Geometry α
  material : Material α
  position : Vector3 α
  lookAt : Option (Vector3 α)

/-- A `THREE.Line`. -/
structure Line (α : Type) where
  id : Nat
  geometry : Geometry α
  material : Material α

/-- A `THREE.Group`; the program only ever puts meshes into a group. -/
structure Group (α : Type) where
  id : Nat
  children : List (Mesh α)

/-- The `THREE.AxesHelper` that `initScene` puts into the scene. -/
structure AxesHelper (α : Type) where
  id : Nat
  geometry : Geometry α
  material : Material α

/-- What can be a direct child of the scene. -/
inductive SceneObject (α : Type) where
  | axesHelper (a : AxesHelper α)
  | mesh (m : Mesh α)
  | line (l : Line α)
  | group (g : Group α)

variable {α : Type}

/-- Identity of a scene child. -/
def SceneObject.id : SceneObject α → Nat
  | .axesHelper a => a.id
  | .mesh m => m.id
  | .line l => l.id
  | .group g => g.id

/-- A mesh whose geometry is a `ConeGeometry`. -/
def SceneObject.isCone : SceneObject α → Bool
  | .mesh m => match m.geometry.shape with
    | .cone _ _ _ => true
    | _ => false
  | _ => false

/-- A `THREE.Line` (the spiral). -/
def SceneObject.isLine : SceneObject α → Bool
  | .line _ => true
  | _ => false

/-- A `THREE.Group` (an observation zone). -/
def SceneObject.isZone : SceneObject α → Bool
  | .group _ => true
  | _ => false

/-- An object made by `updateScene` (anything but the axes helper). -/
def SceneObject.isGenerated : SceneObject α → Bool
  | .axesHelper _ => false
  | _ => true

/-- Failure of a JavaScript evaluation. -/
inductive JsError where
  | typeError
  deriving DecidableEq

/-- Module state of `main.js` together with the part of the `THREE` world it
acts on. -/
structure World (α : Type) where
  nextId : Nat
  children : List (SceneObject α)
  disposed : List Nat
  options : Options α
  cone : Option (Mesh α)
  line : Option (Line α)
  observationZones : Option (List (Group α))

/-! ## `createCone` (lines 43-54) -/

/-- Translation of `createCone(options)`; `n` is the next free identity. -/
def createCone [Field α] (n : Nat) (options : Options α) : Mesh α × Nat :=
  let geometry : Geometry α :=
    ⟨n, .cone options.coneBaseRadius options.coneHeight 32⟩
  let material : Material α := ⟨n + 1, .meshBasic 0xffff00⟩
  let cone : Mesh α :=
    { id := n + 2, geometry := geometry, material := material,
      position := ⟨0, options.coneHeight / 2, 0⟩, lookAt := none }
  (cone, n + 3)

/-- Loop variables of the `for` loop: the two arrays and the identity
counter. -/
structure LoopState (α : Type) where
  points : List (Vector3 α)
  observationZones : List (Group α)
  nextId : Nat

/-- Lines 68-72: the point sampled at loop index `i`. -/
def samplePoint [Field α] (M : JsMath α) (numPoints : Nat) (thetaMax h R d : α)
    (i : Nat) : Vector3 α :=
  let theta := ((i : α) / ((numPoints : α) - 1)) * thetaMax
  let y := ((i : α) / ((numPoints : α) - 1)) * h
  let r := ((R - d) / h) * (h - y) + d
  let x := r * M.cos theta
  let z := r * M.sin theta
  ⟨x, y, z⟩

/-- Lines 77-98: the group built at a sampled point `(x, y, z)`, taking
seven identities from `n` on, in the order of the `new` expressions. -/
def makeZone [Field α] (n : Nat) (p : Vector3 α) : Group α :=
  let sphereGeometry : Geometry α := ⟨n, .sphere 0.05 16 16⟩
  let sphereMaterial : Material α := ⟨n + 1, .meshBasic 0xffffff⟩
  let sphere : Mesh α :=
    { id := n + 2, geometry := sphereGeometry, material := sphereMaterial,
      position := ⟨p.x, p.y, p.z⟩, lookAt := none }
  let pointerGeometry : Geometry α := ⟨n + 3, .plane 0.5 0.5⟩
  let pointerMaterial : Material α := ⟨n + 4, .meshPhong 0xffffff 0.5 true true⟩
  let centerVector : Vector3 α := ⟨0, p.y, 0⟩
  let pointer : Mesh α :=
    { id := n + 5, geometry := pointerGeometry, material := pointerMaterial,
      position := ⟨p.x, p.y, p.z⟩, lookAt := some centerVector }
  { id := n + 6, children := [sphere, pointer] }

/-- One iteration of the `for` loop (lines 67-102). -/
def loopBody [Field α] (M : JsMath α) (numPoints : Nat) (thetaMax h R d : α)
    (st : LoopState α) (i : Nat) : LoopState α :=
  let p := samplePoint M numPoints thetaMax h R d i
  let points := st.points ++ [p]
  if i % 5 = 0 then
    { points := points,
      observationZones := st.observationZones ++ [makeZone st.nextId p],
      nextId := st.nextId + 7 }
  else
    { st with points := points }

/-- Body of `createSpiralAndObservationZones` with the local constant
`numPoints` as a parameter. -/
def createSpiralAndObservationZonesWith [Field α] (M : JsMath α) (numPoints : Nat)
    (n : Nat) (options : Options α) : (Line α × List (Group α)) × Nat :=
  let lineMaterial : Material α := ⟨n, .lineBasic 0xfff⟩
  let thetaMax := 20 * M.PI
  let h := options.coneHeight
  let R := options.coneBaseRadius * 2
  let d := 0.35 * R
  let st := (List.range numPoints).foldl (loopBody M numPoints thetaMax h R d)
    { points := [], observationZones := [], nextId := n + 1 }
  let lineGeometry : Geometry α := ⟨st.nextId, .buffer st.points⟩
  let line : Line α :=
    { id := st.nextId + 1, geometry := lineGeometry, material := lineMaterial }
  ((line, st.observationZones), st.nextId + 2)

/-- The constant `numPoints` of line 60. -/
def numPoints : Nat := 500

/-- Translation of `createSpiralAndObservationZones(options)`. -/
def createSpiralAndObservationZones [Field α] (M : JsMath α) (n : Nat)
    (options : Options α) : (Line α × List (Group α)) × Nat :=
  createSpiralAndObservationZonesWith M numPoints n options

/-- The points handed to `setFromPoints` for a line. -/
def Line.points (l : Line α) : List (Vector3 α) :=
  match l.geometry.shape with
  | .buffer ps => ps
  | _ => []

/-! ## The scene graph and `updateScene` (lines 15-41) -/

/-- Effect of `scene.remove(o)` for the object of identity `i`. -/
def sceneRemove (i : Nat) (w : World α) : World α :=
  { w with children := w.children.eraseP (fun o => o.id == i) }

/-- Effect of `scene.add(o)`. -/
def sceneAdd (o : SceneObject α) (w : World α) : World α :=
  { w with children := w.children.eraseP (fun c => c.id == o.id) ++ [o] }

/-- Effect of `x.dispose()` for the geometry or material of identity `i`. -/
def dispose (i : Nat) (w : World α) : World α :=
  { w with disposed := w.disposed ++ [i] }

/-- Lines 26-27 for one child of a zone.  A child is a mesh, so both
`child.geometry` and `child.material` are objects and both tests succeed. -/
def disposeChild (w : World α) (child : Mesh α) : World α :=
  dispose child.material.id (dispose child.geometry.id w)

/-- Lines 24-28 for one zone: take it out of the scene and dispose what its
children hold. -/
def disposeZone (w : World α) (zone : Group α) : World α :=
  zone.children.foldl disposeChild (sceneRemove zone.id w)

/-- Line 29: `zone.children.length = 0`. -/
def clearChildren (zone : Group α) : Group α :=
  { zone with children := [] }

/-- The condition of line 16, `cone && line && observationZones.length > 0`,
with the short-circuit order of `&&`. -/
def guard (w : World α) : Except JsError Bool :=
  match w.cone with
  | none => .ok false
  | some _ =>
    match w.line with
    | none => .ok false
    | some _ =>
      match w.observationZones with
      | none => .error .typeError
      | some zones => .ok (decide (zones.length > 0))

/-- Lines 17-30, the body of the `if`. -/
def teardownBody (w : World α) : Except JsError (World α) :=
  match w.cone, w.line, w.observationZones with
  | some cone, some line, some zones =>
    let w := sceneRemove cone.id w
    let w := sceneRemove line.id w
    let w := dispose cone.geometry.id w
    let w := dispose cone.material.id w
    let w := dispose line.geometry.id w
    let w := dispose line.material.id w
    let w := zones.foldl disposeZone w
    .ok { w with observationZones := some (zones.map clearChildren) }
  | _, _, _ => .error .typeError

/-- Lines 16-31: the guarded tear-down. -/
def teardown (w : World α) : Except JsError (World α) :=
  match guard w with
  | .error e => .error e
  | .ok true => teardownBody w
  | .ok false => .ok w

/-- Lines 33-40: build from `options` and insert into the scene. -/
def build [Field α] (M : JsMath α) (w : World α) : World α :=
  let made := createCone w.nextId w.options
  let cone := made.1
  let spiral := createSpiralAndObservationZones M made.2 w.options
  let line := spiral.1.1
  let observationZones := spiral.1.2
  let w := { w with nextId := spiral.2, cone := some cone, line := some line,
                    observationZones := some observationZones }
  let w := observationZones.foldl (fun w zone => sceneAdd (.group zone) w) w
  let w := sceneAdd (.mesh cone) w
  sceneAdd (.line line) w

/-- Translation of `updateScene()`. -/
def updateScene [Field α] (M : JsMath α) (w : World α) : Except JsError (World α) :=
  match teardown w with
  | .error e => .error e
  | .ok w1 => .ok (build M w1)

/-- The axes helper of `initScene` (lines 136-138). -/
def axesHelper [Field α] : AxesHelper α :=
  { id := 2, geometry := ⟨0, .axes 10⟩, material := ⟨1, .axesColors⟩ }

/-- State after line 6: the result of `initScene()` and the three handles
still `undefined`. -/
def initWorld [Field α] : World α :=
  { nextId := 3, children := [.axesHelper axesHelper], disposed := [],
    options := { coneHeight := 8, coneBaseRadius := 2 },
    cone := none, line := none, observationZones := none }

/-- A slider writes the new parameters into `options`, then `onChange`
calls `updateScene`. -/
def rebuild [Field α] (M : JsMath α) (p : Options α) (w : World α) :
    Except JsError (World α) :=
  updateScene M { w with options := p }

/-- Successive rebuilds, one per element of `ps`, stopping at a failure. -/
def rebuilds [Field α] (M : JsMath α) : List (Options α) → World α →
    Except JsError (World α)
  | [], w => .ok w
  | p :: ps, w =>
    match rebuild M p w with
    | .error e => .error e
    | .ok w1 => rebuilds M ps w1

/-- The nodes of the scene graph at and below a child of the scene, the
child first (the order of `traverse`). -/
def SceneObject.nodes : SceneObject α → List (SceneObject α)
  | .group g => .group g :: g.children.map .mesh
  | .axesHelper a => [.axesHelper a]
  | .mesh m => [.mesh m]
  | .line l => [.line l]

/-- All nodes of the scene graph below the scene. -/
def World.graph (w : World α) : List (SceneObject α) :=
  w.children.flatMap SceneObject.nodes

/-- Identities of the geometry and the material of a mesh. -/
def Mesh.resources (m : Mesh α) : List Nat := [m.geometry.id, m.material.id]

/-- Identities of all geometries and materials held by the cone, the line
and the children of the zones. -/
def resourcesOf (cone : Mesh α) (line : Line α) (zones : List (Group α)) : List Nat :=
  cone.resources ++ [line.geometry.id, line.material.id] ++
    zones.flatMap (fun z => z.children.flatMap Mesh.resources)

/-- Identities of the geometries and materials reachable from the three
handles. -/
def World.resources (w : World α) : List Nat :=
  match w.cone, w.line, w.observationZones with
  | some cone, some line, some zones => resourcesOf cone line zones
  | _, _, _ => []

/-! ## Closed forms used to state the invariants -/

/-- Identities of the geometries and materials made by one build that
starts at counter `lo` with parameters `o`. -/
def buildResources [Field α] (M : JsMath α) (lo : Nat) (o : Options α) : List Nat :=
  resourcesOf (createCone lo o).1 (createSpiralAndObservationZones M (lo + 3) o).1.1
    (createSpiralAndObservationZones M (lo + 3) o).1.2

/-- The populated state whose objects were built at counter `lo` from the
parameters `built`, with `current` in `options` and `d` as disposal log. -/
def populated [Field α] (M : JsMath α) (lo : Nat) (built current : Options α)
    (d : List Nat) : World α :=
  { nextId := lo + 706,
    children := .axesHelper axesHelper ::
      ((createSpiralAndObservationZones M (lo + 3) built).1.2.map .group ++
        [.mesh (createCone lo built).1,
         .line (createSpiralAndObservationZones M (lo + 3) built).1.1]),
    disposed := d,
    options := current,
    cone := some (createCone lo built).1,
    line := some (createSpiralAndObservationZones M (lo + 3) built).1.1,
    observationZones := some (createSpiralAndObservationZones M (lo + 3) built).1.2 }

/-- Disposal log produced by tearing down, in order, the builds made from
the parameters `ps` at the counters `lo`, `lo + 706`, ... -/
def disposedLog [Field α] (M : JsMath α) : Nat → List (Options α) → List Nat
  | _, [] => []
  | lo, p :: ps => buildResources M lo p ++ disposedLog M (lo + 706) ps

/-- State reached from `initWorld` by rebuilding with `ps`, in closed form. -/
def stateAfter [Field α] (M : JsMath α) (ps : List (Options α)) : World α :=
  match ps.getLast? with
  | none => initWorld
  | some q => populated M (3 + 706 * (ps.length - 1)) q q (disposedLog M 3 ps.dropLast)

/-! ## The loop in closed form -/

/-- State of the loop after `n` iterations started with empty arrays and
counter `s`: all `n` points, one zone for each multiple of five below `n`. -/
theorem foldl_loopBody [Field α] (M : JsMath α) (N : Nat) (tm h R d : α) (s n : Nat) :
    (List.range n).foldl (loopBody M N tm h R d)
        { points := [], observationZones := [], nextId := s } =
      { points := (List.range n).map (samplePoint M N tm h R d),
        observationZones := (List.range ((n + 4) / 5)).map
          (fun k => makeZone (s + 7 * k) (samplePoint M N tm h R d (5 * k))),
        nextId := s + 7 * ((n + 4) / 5) } := by
  induction n with
  | zero => simp
  | succ n ih =>
    rw [List.range_succ, List.foldl_append, ih]
    by_cases h5 : n % 5 = 0
    · have e1 : (n + 1 + 4) / 5 = (n + 4) / 5 + 1 := by omega
      have e2 : 5 * ((n + 4) / 5) = n := by omega
      simp [loopBody, h5, e1, List.range_succ, e2]
      omega
    · have e1 : (n + 1 + 4) / 5 = (n + 4) / 5 := by omega
      simp [loopBody, h5, e1, List.range_succ]

/-- Closed form of `createSpiralAndObservationZonesWith`. -/
theorem createSpiralWith_eq [Field α] (M : JsMath α) (N n : Nat) (o : Options α) :
    createSpiralAndObservationZonesWith M N n o =
      (({ id := n + 1 + 7 * ((N + 4) / 5) + 1,
          geometry := ⟨n + 1 + 7 * ((N + 4) / 5),
            .buffer ((List.range N).map (samplePoint M N (20 * M.PI) o.coneHeight
              (o.coneBaseRadius * 2) (0.35 * (o.coneBaseRadius * 2))))⟩,
          material := ⟨n, .lineBasic 0xfff⟩ },
        (List.range ((N + 4) / 5)).map (fun k => makeZone (n + 1 + 7 * k)
          (samplePoint M N (20 * M.PI) o.coneHeight (o.coneBaseRadius * 2)
            (0.35 * (o.coneBaseRadius * 2)) (5 * k)))),
       n + 1 + 7 * ((N + 4) / 5) + 2) := by
  simp only [createSpiralAndObservationZonesWith, foldl_loopBody]

/-- Closed form of `createSpiralAndObservationZones`: 500 points, 100 zones,
703 identities. -/
theorem createSpiral_eq [Field α] (M : JsMath α) (n : Nat) (o : Options α) :
    createSpiralAndObservationZones M n o =
      (({ id := n + 702,
          geometry := ⟨n + 701,
            .buffer ((List.range 500).map (samplePoint M 500 (20 * M.PI) o.coneHeight
              (o.coneBaseRadius * 2) (0.35 * (o.coneBaseRadius * 2))))⟩,
          material := ⟨n, .lineBasic 0xfff⟩ },
        (List.range 100).map (fun k => makeZone (n + 1 + 7 * k)
          (samplePoint M 500 (20 * M.PI) o.coneHeight (o.coneBaseRadius * 2)
            (0.35 * (o.coneBaseRadius * 2)) (5 * k)))),
       n + 703) := by
  rw [createSpiralAndObservationZones, numPoints, createSpiralWith_eq]

/-! ## The sampled curve in exact real arithmetic -/

/-- Height of the real sample `i`. -/
theorem samplePoint_y (M : JsMath ℝ) (tm h R d : ℝ) (i : Nat) :
    (samplePoint M 500 tm h R d i).y = (i : ℝ) / 499 * h := by
  simp only [samplePoint]; norm_num

/-- Points of the real spiral in closed form. -/
theorem real_points_eq (h b : ℝ) (n : Nat) :
    (createSpiralAndObservationZones ⟨Real.pi, Real.cos, Real.sin⟩ n ⟨h, b⟩).1.1.points =
      (List.range 500).map (samplePoint ⟨Real.pi, Real.cos, Real.sin⟩ 500 (20 * Real.pi) h
        (b * 2) (0.35 * (b * 2))) := by
  rw [createSpiral_eq]; simp only [Line.points]

/-- C1: for `h > 0`, `b > 0` the point sequence of the spiral has `numPoints = 500`
entries and entry `i` is `(r cos θ, y, r sin θ)` with `t = i/(numPoints-1)`,
`θ = t*20*π`, `y = t*h`, `R = 2*b`, `d = 0.35*R`, `r = ((R-d)/h)*(h-y) + d`. -/
theorem spiral_points_formula (h b : ℝ) (_hh : 0 < h) (_hb : 0 < b) (n : Nat) :
    (createSpiralAndObservationZones ⟨Real.pi, Real.cos, Real.sin⟩ n ⟨h, b⟩).1.1.points.length
        = numPoints ∧
    ∀ i : Nat, i < numPoints →
      (createSpiralAndObservationZones ⟨Real.pi, Real.cos, Real.sin⟩ n ⟨h, b⟩).1.1.points[i]? =
        some
          (let t : ℝ := (i : ℝ) / ((numPoints : ℝ) - 1)
           let theta : ℝ := t * 20 * Real.pi
           let y : ℝ := t * h
           let R : ℝ := 2 * b
           let d : ℝ := 0.35 * R
           let r : ℝ := ((R - d) / h) * (h - y) + d
           ⟨r * Real.cos theta, y, r * Real.sin theta⟩) := by
  rw [real_points_eq]
  refine ⟨by simp [numPoints], ?_⟩
  intro i hi
  rw [numPoints] at hi
  rw [List.getElem?_map, List.getElem?_range hi]
  simp only [Option.map_some', samplePoint, numPoints]
  have e1 : (i : ℝ) / (((500 : ℕ) : ℝ) - 1) * (20 * Real.pi)
      = (i : ℝ) / (((500 : ℕ) : ℝ) - 1) * 20 * Real.pi := by ring
  rw [e1, mul_comm b 2]

/-- Witness for C1 at `h = 8`, `b = 2`. -/
theorem spiral_points_formula_witness :
    (0 : ℝ) < 8 ∧ (0 : ℝ) < 2 ∧
    (createSpiralAndObservationZones ⟨Real.pi, Real.cos, Real.sin⟩ 0 ⟨(8 : ℝ), 2⟩).1.1.points.length
        = numPoints :=
  ⟨by norm_num, by norm_num,
    (spiral_points_formula 8 2 (by norm_num) (by norm_num) 0).1⟩

/-- C8: for `h > 0`, `b > 0` the heights of the sampled points are
non-decreasing in the sample index, the first is `0`, the last is `h`, and
all of them lie in `[0, h]`. -/
theorem spiral_heights_monotone (h b : ℝ) (hh : 0 < h) (_hb : 0 < b) (n : Nat) :
    ((createSpiralAndObservationZones ⟨Real.pi, Real.cos, Real.sin⟩ n
        ⟨h, b⟩).1.1.points.map Vector3.y).Pairwise (· ≤ ·) ∧
    ((createSpiralAndObservationZones ⟨Real.pi, Real.cos, Real.sin⟩ n
        ⟨h, b⟩).1.1.points.map Vector3.y).head? = some 0 ∧
    ((createSpiralAndObservationZones ⟨Real.pi, Real.cos, Real.sin⟩ n
        ⟨h, b⟩).1.1.points.map Vector3.y).getLast? = some h ∧
    ∀ y ∈ (createSpiralAndObservationZones ⟨Real.pi, Real.cos, Real.sin⟩ n
        ⟨h, b⟩).1.1.points.map Vector3.y, 0 ≤ y ∧ y ≤ h := by
  have ys : (createSpiralAndObservationZones ⟨Real.pi, Real.cos, Real.sin⟩ n
        ⟨h, b⟩).1.1.points.map Vector3.y
      = (List.range 500).map (fun i : Nat => (i : ℝ) / 499 * h) := by
    rw [real_points_eq, List.map_map]
    apply List.map_congr_left
    intro i _
    simp only [Function.comp, samplePoint_y]
  rw [ys]
  refine ⟨?_, ?_, ?_, ?_⟩
  · rw [List.pairwise_map]
    refine List.Pairwise.imp ?_ (List.pairwise_lt_range 500)
    intro i j hij
    have : (i : ℝ) ≤ (j : ℝ) := by exact_mod_cast Nat.le_of_lt hij
    have : (i : ℝ) / 499 ≤ (j : ℝ) / 499 := by
      apply div_le_div_of_nonneg_right this (by norm_num)
    exact mul_le_mul_of_nonneg_right this (le_of_lt hh)
  · rw [show (500 : Nat) = 499 + 1 from rfl, List.range_succ_eq_map]
    simp
  · rw [show (500 : Nat) = 499 + 1 from rfl, List.range_succ, List.map_append]
    simp
  · intro y hy
    rw [List.mem_map] at hy
    obtain ⟨i, hi, rfl⟩ := hy
    rw [List.mem_range] at hi
    have hi2 : (i : ℝ) ≤ 499 := by exact_mod_cast Nat.lt_succ_iff.mp hi
    have h0 : (0 : ℝ) ≤ (i : ℝ) / 499 := by positivity
    have h1 : (i : ℝ) / 499 ≤ 1 := by rw [div_le_one (by norm_num)]; exact hi2
    constructor
    · exact mul_nonneg h0 (le_of_lt hh)
    · calc (i : ℝ) / 499 * h ≤ 1 * h := mul_le_mul_of_nonneg_right h1 (le_of_lt hh)
        _ = h := one_mul h

/-- Witness for C8 at `h = 8`, `b = 2`. -/
theorem spiral_heights_monotone_witness :
    (0 : ℝ) < 8 ∧ (0 : ℝ) < 2 ∧
    ((createSpiralAndObservationZones ⟨Real.pi, Real.cos, Real.sin⟩ 0
        ⟨(8 : ℝ), 2⟩).1.1.points.map Vector3.y).Pairwise (· ≤ ·) :=
  ⟨by norm_num, by norm_num,
    (spiral_heights_monotone 8 2 (by norm_num) (by norm_num) 0).1⟩

/-- Number of multiples of five below `N`. -/
theorem filter_mod5_length (N : Nat) :
    ((List.range N).filter (fun i => i % 5 = 0)).length = (N + 4) / 5 := by
  induction N with
  | zero => rfl
  | succ N ih =>
    rw [List.range_succ, List.filter_append, List.length_append, ih]
    by_cases h5 : N % 5 = 0
    · simp [h5]; omega
    · simp [h5]; omega

/-- The rounded-up quotient `ceil(N/5)`. -/
theorem ceil_div5 (N : Nat) : ⌈(N : ℚ) / 5⌉₊ = (N + 4) / 5 := by
  apply le_antisymm
  · rw [Nat.ceil_le, div_le_iff₀ (by norm_num)]
    have : N ≤ (N + 4) / 5 * 5 := by omega
    exact_mod_cast this
  · rcases Nat.eq_zero_or_pos ((N + 4) / 5) with h0 | hpos
    · rw [h0]; exact Nat.zero_le _
    · have h1 : (N + 4) / 5 - 1 < ⌈(N : ℚ) / 5⌉₊ := by
        rw [Nat.lt_ceil, lt_div_iff₀ (by norm_num)]
        have : ((N + 4) / 5 - 1) * 5 < N := by omega
        exact_mod_cast this
      omega

/-- C3: the number of observation zones is `ceil(numPoints/5)`, the number
of indices `i` in `[0, numPoints-1]` with `i mod 5 = 0`, whatever the value
of the constant `numPoints`; for the source's `numPoints = 500` it is 100, for
every height and base radius. -/
theorem zone_count [Field α] (M : JsMath α) (N n : Nat) (o : Options α) :
    (createSpiralAndObservationZonesWith M N n o).1.2.length = ⌈(N : ℚ) / 5⌉₊ ∧
    (createSpiralAndObservationZonesWith M N n o).1.2.length =
      ((List.range N).filter (fun i => i % 5 = 0)).length ∧
    (createSpiralAndObservationZones M n o).1.2.length = 100 := by
  refine ⟨?_, ?_, ?_⟩
  · rw [createSpiralWith_eq, ceil_div5]; simp
  · rw [createSpiralWith_eq, filter_mod5_length]; simp
  · rw [createSpiral_eq]; simp

/-- C7: for `k < 100` the `k`-th zone is a group of exactly two children, a
sphere marker and a plane pointer, both positioned at the sampled point of
index `5*k`, and the pointer looks at the axis point `(0, y, 0)` at the
height `y` of that point. -/
theorem zone_structure [Field α] (M : JsMath α) (n : Nat) (o : Options α)
    (k : Nat) (hk : k < 100) :
    ∃ (p : Vector3 α) (g : Group α) (sphere pointer : Mesh α),
      (createSpiralAndObservationZones M n o).1.1.points[5 * k]? = some p ∧
      (createSpiralAndObservationZones M n o).1.2[k]? = some g ∧
      g.children = [sphere, pointer] ∧
      sphere.geometry.shape = .sphere 0.05 16 16 ∧
      pointer.geometry.shape = .plane 0.5 0.5 ∧
      sphere.position = p ∧ sphere.lookAt = none ∧
      pointer.position = p ∧
      pointer.lookAt = some ⟨0, p.y, 0⟩ := by
  rw [createSpiral_eq]
  refine ⟨samplePoint M 500 (20 * M.PI) o.coneHeight (o.coneBaseRadius * 2)
      (0.35 * (o.coneBaseRadius * 2)) (5 * k),
    makeZone (n + 1 + 7 * k) (samplePoint M 500 (20 * M.PI) o.coneHeight
      (o.coneBaseRadius * 2) (0.35 * (o.coneBaseRadius * 2)) (5 * k)),
    _, _, ?_, ?_, rfl, rfl, rfl, rfl, rfl, rfl, rfl⟩
  · simp only [Line.points]
    rw [List.getElem?_map, List.getElem?_range (by omega)]
    rfl
  · simp only []
    rw [List.getElem?_map, List.getElem?_range hk]
    rfl

/-- Witness for C7: zone 3 of the default scene, over the rationals. -/
theorem zone_structure_witness :
    3 < 100 ∧
    ∃ (p : Vector3 ℚ) (g : Group ℚ) (sphere pointer : Mesh ℚ),
      (createSpiralAndObservationZones (⟨3, fun _ => 1, fun _ => 0⟩ : JsMath ℚ) 6
        ⟨8, 2⟩).1.1.points[5 * 3]? = some p ∧
      (createSpiralAndObservationZones (⟨3, fun _ => 1, fun _ => 0⟩ : JsMath ℚ) 6
        ⟨8, 2⟩).1.2[3]? = some g ∧
      g.children = [sphere, pointer] ∧
      sphere.geometry.shape = .sphere 0.05 16 16 ∧
      pointer.geometry.shape = .plane 0.5 0.5 ∧
      sphere.position = p ∧ sphere.lookAt = none ∧
      pointer.position = p ∧
      pointer.lookAt = some ⟨0, p.y, 0⟩ :=
  ⟨by norm_num, zone_structure ⟨3, fun _ => 1, fun _ => 0⟩ 6 ⟨8, 2⟩ 3 (by norm_num)⟩

/-! ## The scene graph operations -/

/-- Disposing the children of a zone only extends the disposal log. -/
theorem foldl_disposeChild (cs : List (Mesh α)) (w : World α) :
    cs.foldl disposeChild w =
      { w with disposed := w.disposed ++ cs.flatMap Mesh.resources } := by
  induction cs generalizing w with
  | nil => simp
  | cons c cs ih =>
    rw [List.foldl_cons, ih]
    simp [disposeChild, dispose, Mesh.resources, List.flatMap_cons]

/-- Effect of the `forEach` of lines 23-30 on the scene and on the log. -/
theorem foldl_disposeZone (zs : List (Group α)) (w : World α) :
    zs.foldl disposeZone w =
      { w with
        children := zs.foldl (fun cs z => cs.eraseP (fun o => o.id == z.id)) w.children,
        disposed := w.disposed ++ zs.flatMap (fun z => z.children.flatMap Mesh.resources) } := by
  induction zs generalizing w with
  | nil => simp
  | cons z zs ih =>
    rw [List.foldl_cons, ih]
    simp [disposeZone, foldl_disposeChild, sceneRemove, List.flatMap_cons]

/-- Removing every zone, in order, from a scene that holds `a` followed by
the zones leaves `a`. -/
theorem foldl_erase_zones (a : SceneObject α) (zs : List (Group α))
    (ha : ∀ z ∈ zs, a.id ≠ z.id) :
    zs.foldl (fun cs z => cs.eraseP (fun o => o.id == z.id))
      (a :: zs.map SceneObject.group) = [a] := by
  induction zs with
  | nil => rfl
  | cons z zs ih =>
    have h1 : a.id ≠ z.id := ha z (List.mem_cons_self _ _)
    rw [List.foldl_cons, List.map_cons]
    rw [List.eraseP_cons_of_neg (by simpa using h1)]
    rw [List.eraseP_cons_of_pos (by simp [SceneObject.id])]
    exact ih (fun z hz => ha z (List.mem_cons_of_mem _ hz))

/-- Adding zones with pairwise distinct identities that are new to the scene
appends them. -/
theorem foldl_sceneAdd (zs : List (Group α)) (w : World α)
    (hnew : ∀ z ∈ zs, ∀ c ∈ w.children, c.id ≠ z.id)
    (hd : zs.Pairwise (fun a b => a.id ≠ b.id)) :
    zs.foldl (fun w zone => sceneAdd (.group zone) w) w =
      { w with children := w.children ++ zs.map SceneObject.group } := by
  induction zs generalizing w with
  | nil => simp
  | cons z zs ih =>
    rw [List.pairwise_cons] at hd
    have hz : (w.children.eraseP fun c => c.id == (SceneObject.group z).id) = w.children := by
      apply List.eraseP_of_forall_not
      intro c hc
      simpa [SceneObject.id] using hnew z (List.mem_cons_self _ _) c hc
    rw [List.foldl_cons, ih _ ?_ hd.2]
    · simp [sceneAdd, hz]
    · intro y hy c hc
      simp only [sceneAdd, hz, List.mem_append, List.mem_singleton] at hc
      rcases hc with hc | rfl
      · exact hnew y (List.mem_cons_of_mem _ hy) c hc
      · exact hd.1 y hy

/-- Identity of a mesh as a scene child. -/
theorem id_mesh (m : Mesh α) : (SceneObject.mesh m).id = m.id := rfl

/-- Identity of a line as a scene child. -/
theorem id_line (l : Line α) : (SceneObject.line l).id = l.id := rfl

/-- Identity of a group as a scene child. -/
theorem id_group (g : Group α) : (SceneObject.group g).id = g.id := rfl

/-- Identity of the axes helper as a scene child. -/
theorem id_axes [Field α] : (SceneObject.axesHelper (axesHelper : AxesHelper α)).id = 2 := rfl

/-- Erasing an identity that occurs only at the end of a scene list. -/
theorem eraseP_last (a : SceneObject α) (zs : List (Group α)) (x y : SceneObject α) (i : Nat)
    (ha : a.id ≠ i) (hz : ∀ z ∈ zs, z.id ≠ i) (hx : x.id = i) :
    (a :: (zs.map SceneObject.group ++ x :: [y])).eraseP (fun o => o.id == i) =
      a :: (zs.map SceneObject.group ++ [y]) ∧
    (a :: (zs.map SceneObject.group ++ [x])).eraseP (fun o => o.id == i) =
      a :: zs.map SceneObject.group := by
  have h1 : ∀ b ∈ zs.map SceneObject.group,
      ¬ ((fun o : SceneObject α => o.id == i) b) = true := by
    intro b hb
    rw [List.mem_map] at hb
    obtain ⟨z, hz1, rfl⟩ := hb
    simpa [id_group] using hz z hz1
  have hna : ¬ ((fun o : SceneObject α => o.id == i) a) = true := by simpa using ha
  have hpx : ((fun o : SceneObject α => o.id == i) x) = true := by simpa using hx
  constructor
  · rw [List.eraseP_cons_of_neg (p := fun o : SceneObject α => o.id == i) (a := a) hna,
      List.eraseP_append_right _ h1,
      List.eraseP_cons_of_pos (p := fun o : SceneObject α => o.id == i) (a := x) hpx]
  · rw [List.eraseP_cons_of_neg (p := fun o : SceneObject α => o.id == i) (a := a) hna,
      List.eraseP_append_right _ h1,
      List.eraseP_cons_of_pos (p := fun o : SceneObject α => o.id == i) (a := x) hpx,
      List.append_nil]

/-- Removing the cone and then the line from a populated scene. -/
theorem erase_cone_line (a : SceneObject α) (zs : List (Group α)) (c : Mesh α) (l : Line α)
    (hac : a.id ≠ c.id) (hzc : ∀ z ∈ zs, z.id ≠ c.id)
    (hal : a.id ≠ l.id) (hzl : ∀ z ∈ zs, z.id ≠ l.id) :
    ((a :: (zs.map SceneObject.group ++ [.mesh c, .line l])).eraseP
        (fun o => o.id == c.id)).eraseP (fun o => o.id == l.id)
      = a :: zs.map SceneObject.group := by
  rw [(eraseP_last a zs (.mesh c) (.line l) c.id hac hzc rfl).1,
    (eraseP_last a zs (.line l) (.line l) l.id hal hzl rfl).2]

/-- Adding a new object at the end of a scene that does not hold its
identity. -/
theorem eraseP_new (cs : List (SceneObject α)) (i : Nat) (h : ∀ c ∈ cs, c.id ≠ i) :
    cs.eraseP (fun o => o.id == i) = cs := by
  apply List.eraseP_of_forall_not
  intro c hc
  simpa using h c hc

/-- Identities of the zones of one build. -/
theorem zone_ids [Field α] (M : JsMath α) (n : Nat) (o : Options α) :
    ∀ z ∈ (createSpiralAndObservationZones M n o).1.2, n + 7 ≤ z.id ∧ z.id < n + 701 := by
  intro z hz
  rw [createSpiral_eq] at hz
  simp only [List.mem_map, List.mem_range] at hz
  obtain ⟨k, hk, rfl⟩ := hz
  simp only [makeZone]
  omega

/-- The zones of one build have pairwise distinct identities. -/
theorem zone_ids_distinct [Field α] (M : JsMath α) (n : Nat) (o : Options α) :
    (createSpiralAndObservationZones M n o).1.2.Pairwise (fun a b => a.id ≠ b.id) := by
  rw [createSpiral_eq]
  simp only []
  rw [List.pairwise_map]
  refine List.Pairwise.imp ?_ (List.pairwise_lt_range 100)
  intro i j hij
  simp only [makeZone]
  omega

/-- One build makes 100 zones. -/
theorem zones_length [Field α] (M : JsMath α) (n : Nat) (o : Options α) :
    (createSpiralAndObservationZones M n o).1.2.length = 100 := by
  rw [createSpiral_eq]; simp

/-- Identity of the line of one build. -/
theorem line_id [Field α] (M : JsMath α) (n : Nat) (o : Options α) :
    (createSpiralAndObservationZones M n o).1.1.id = n + 702 := by
  rw [createSpiral_eq]

/-- Counter after one build of the spiral. -/
theorem spiral_next [Field α] (M : JsMath α) (n : Nat) (o : Options α) :
    (createSpiralAndObservationZones M n o).2 = n + 703 := by
  rw [createSpiral_eq]

/-- Identity and resources of the cone of one build. -/
theorem cone_ids [Field α] (lo : Nat) (o : Options α) :
    (createCone lo o).1.id = lo + 2 ∧ (createCone lo o).1.geometry.id = lo ∧
      (createCone lo o).1.material.id = lo + 1 ∧ (createCone lo o).2 = lo + 3 :=
  ⟨rfl, rfl, rfl, rfl⟩

/-- The guarded tear-down of a populated state empties the scene down to the
axes helper and disposes exactly the resources of the build. -/
theorem teardown_populated [Field α] (M : JsMath α) (lo : Nat) (o c : Options α)
    (d : List Nat) (hlo : 3 ≤ lo) :
    teardown (populated M lo o c d) = .ok
      { nextId := lo + 706,
        children := [.axesHelper axesHelper],
        disposed := d ++ buildResources M lo o,
        options := c,
        cone := some (createCone lo o).1,
        line := some (createSpiralAndObservationZones M (lo + 3) o).1.1,
        observationZones :=
          some ((createSpiralAndObservationZones M (lo + 3) o).1.2.map clearChildren) } := by
  have hz := zone_ids M (lo + 3) o
  have hl := line_id M (lo + 3) o
  have hcid := (cone_ids lo o).1
  have hg : guard (populated M lo o c d) = .ok true := by
    simp [guard, populated, zones_length]
  have hch := erase_cone_line (.axesHelper axesHelper)
    (createSpiralAndObservationZones M (lo + 3) o).1.2 (createCone lo o).1
    (createSpiralAndObservationZones M (lo + 3) o).1.1
    (by rw [id_axes, hcid]; omega)
    (by intro z h; have := hz z h; rw [hcid]; omega)
    (by rw [id_axes, hl]; omega)
    (by intro z h; have := hz z h; rw [hl]; omega)
  have hzs := foldl_erase_zones (.axesHelper (axesHelper : AxesHelper α))
    (createSpiralAndObservationZones M (lo + 3) o).1.2
    (by intro z h; have := hz z h; rw [id_axes]; omega)
  rw [teardown, hg]
  simp only [teardownBody, populated, foldl_disposeZone, sceneRemove, dispose, hch, hzs,
    buildResources, resourcesOf, Mesh.resources]
  simp

/-- Building into a scene that holds only the axes helper gives the
populated state. -/
theorem build_eq [Field α] (M : JsMath α) (w : World α)
    (hc : w.children = [.axesHelper axesHelper]) (hn : 3 ≤ w.nextId) :
    build M w = populated M w.nextId w.options w.options w.disposed := by
  obtain ⟨n, cs, d, o, c, l, zo⟩ := w
  simp only at hc hn
  subst hc
  have hz := zone_ids M (n + 3) o
  have hl := line_id M (n + 3) o
  have hnx : (createSpiralAndObservationZones M (n + 3) o).2 = n + 706 := by
    rw [spiral_next]
  have hcid := (cone_ids n o).1
  have hadd := foldl_sceneAdd (createSpiralAndObservationZones M (n + 3) o).1.2
    { nextId := n + 706, children := [.axesHelper axesHelper], disposed := d,
      options := o, cone := some (createCone n o).1,
      line := some (createSpiralAndObservationZones M (n + 3) o).1.1,
      observationZones := some (createSpiralAndObservationZones M (n + 3) o).1.2 }
    (by
      intro z h c hcm
      have := hz z h
      simp only [List.mem_singleton] at hcm
      subst hcm
      rw [id_axes]; omega)
    (zone_ids_distinct M (n + 3) o)
  simp only [] at hadd
  have e1 : ∀ b ∈ (SceneObject.axesHelper axesHelper ::
      (createSpiralAndObservationZones M (n + 3) o).1.2.map SceneObject.group),
      b.id ≠ (SceneObject.mesh (createCone n o).1).id := by
    intro b hb
    rw [List.mem_cons, List.mem_map] at hb
    rw [id_mesh, hcid]
    rcases hb with rfl | ⟨z, h, rfl⟩
    · rw [id_axes]; omega
    · have := hz z h
      rw [id_group]; omega
  have e2 : ∀ b ∈ (SceneObject.axesHelper axesHelper ::
      (createSpiralAndObservationZones M (n + 3) o).1.2.map SceneObject.group
        ++ [SceneObject.mesh (createCone n o).1]),
      b.id ≠ (SceneObject.line (createSpiralAndObservationZones M (n + 3) o).1.1).id := by
    intro b hb
    rw [List.mem_append, List.mem_cons, List.mem_map, List.mem_singleton] at hb
    rw [id_line, hl]
    rcases hb with (rfl | ⟨z, h, rfl⟩) | rfl
    · rw [id_axes]; omega
    · have := hz z h
      rw [id_group]; omega
    · rw [id_mesh, hcid]; omega
  have e0 : (createCone n o).2 = n + 3 := rfl
  simp only [build, e0, hnx]
  rw [hadd]
  simp only [sceneAdd, List.singleton_append]
  rw [eraseP_new _ _ e1, eraseP_new _ _ e2]
  simp only [populated, List.cons_append, List.append_assoc, List.singleton_append,
    List.nil_append]

/-! ## The rebuild cycle in closed form -/

/-- The guard is false in the initial state and the tear-down does
nothing. -/
theorem teardown_init [Field α] (p : Options α) :
    teardown ({ (initWorld : World α) with options := p }) =
      .ok { (initWorld : World α) with options := p } := by
  simp [teardown, guard, initWorld]

/-- First rebuild. -/
theorem rebuild_init [Field α] (M : JsMath α) (p : Options α) :
    rebuild M p initWorld = .ok (populated M 3 p p []) := by
  rw [rebuild, updateScene, teardown_init]
  simp only []
  rw [build_eq M _ rfl (Nat.le_refl 3)]
  rfl

/-- Rebuild of a populated state. -/
theorem rebuild_populated [Field α] (M : JsMath α) (lo : Nat) (o c p : Options α)
    (d : List Nat) (hlo : 3 ≤ lo) :
    rebuild M p (populated M lo o c d) =
      .ok (populated M (lo + 706) p p (d ++ buildResources M lo o)) := by
  have e : ({ populated M lo o c d with options := p } : World α) = populated M lo o p d := rfl
  rw [rebuild, updateScene, e, teardown_populated M lo o p d hlo]
  simp only []
  rw [build_eq M _ rfl (by simp only []; omega)]

/-- Unfolding of `rebuilds` after a successful first rebuild. -/
theorem rebuilds_cons_ok [Field α] (M : JsMath α) (p : Options α) (ps : List (Options α))
    (w w1 : World α) (h : rebuild M p w = .ok w1) :
    rebuilds M (p :: ps) w = rebuilds M ps w1 := by
  simp only [rebuilds, h]

/-- Successive rebuilds of a populated state. -/
theorem rebuilds_populated [Field α] (M : JsMath α) (ps : List (Options α)) (q : Options α) :
    ∀ (lo : Nat) (o c : Options α) (d : List Nat), 3 ≤ lo →
      rebuilds M (ps ++ [q]) (populated M lo o c d) =
        .ok (populated M (lo + 706 * (ps.length + 1)) q q (d ++ disposedLog M lo (o :: ps))) := by
  induction ps with
  | nil =>
    intro lo o c d hlo
    rw [List.nil_append, rebuilds_cons_ok M q [] _ _ (rebuild_populated M lo o c q d hlo)]
    simp only [rebuilds, disposedLog, List.length_nil, List.append_nil]
  | cons p ps ih =>
    intro lo o c d hlo
    rw [List.cons_append, rebuilds_cons_ok M p _ _ _ (rebuild_populated M lo o c p d hlo)]
    rw [ih (lo + 706) p p _ (by omega)]
    have e : lo + 706 + 706 * (ps.length + 1) = lo + 706 * ((p :: ps).length + 1) := by
      simp only [List.length_cons]; omega
    rw [e]
    simp only [disposedLog, List.append_assoc]

/-- Closed form of the state after any sequence of rebuilds from the
initial state. -/
theorem rebuilds_snoc [Field α] (M : JsMath α) (ps : List (Options α)) (q : Options α) :
    rebuilds M (ps ++ [q]) initWorld =
      .ok (populated M (3 + 706 * ps.length) q q (disposedLog M 3 ps)) := by
  cases ps with
  | nil =>
    rw [List.nil_append, rebuilds_cons_ok M q [] _ _ (rebuild_init M q)]
    simp only [rebuilds, disposedLog, List.length_nil]
  | cons p ps =>
    rw [List.cons_append, rebuilds_cons_ok M p _ _ _ (rebuild_init M p)]
    rw [rebuilds_populated M ps q 3 p p [] (Nat.le_refl 3)]
    simp only [List.nil_append, List.length_cons]

/-- The state after any sequence of rebuilds exists and is `stateAfter`. -/
theorem rebuilds_eq [Field α] (M : JsMath α) (ps : List (Options α)) :
    rebuilds M ps initWorld = .ok (stateAfter M ps) := by
  rcases List.eq_nil_or_concat ps with rfl | ⟨L, b, rfl⟩
  · rfl
  · rw [List.concat_eq_append, rebuilds_snoc]
    simp [stateAfter]

/-- The closed form after at least one rebuild. -/
theorem stateAfter_snoc [Field α] (M : JsMath α) (ps : List (Options α)) (q : Options α) :
    stateAfter M (ps ++ [q]) =
      populated M (3 + 706 * ps.length) q q (disposedLog M 3 ps) := by
  simp [stateAfter]

/-- The identity counter after `ps.length` rebuilds. -/
theorem stateAfter_nextId [Field α] (M : JsMath α) (ps : List (Options α)) :
    (stateAfter M ps).nextId = 3 + 706 * ps.length := by
  rcases List.eq_nil_or_concat ps with rfl | ⟨L, b, rfl⟩
  · rfl
  · rw [List.concat_eq_append, stateAfter_snoc]
    simp only [populated, List.length_append, List.length_singleton]
    omega

/-! ## What a populated state holds -/

/-- Groups are counted as zones only. -/
theorem countP_groups (zs : List (Group α)) :
    (zs.map SceneObject.group).countP SceneObject.isCone = 0 ∧
    (zs.map SceneObject.group).countP SceneObject.isLine = 0 ∧
    (zs.map SceneObject.group).countP SceneObject.isZone = zs.length := by
  induction zs with
  | nil => simp
  | cons z zs ih =>
    simp only [List.map_cons, List.countP_cons, ih.1, ih.2.1, ih.2.2, SceneObject.isCone,
      SceneObject.isLine, SceneObject.isZone, List.length_cons]
    simp

/-- Object counts of a populated scene. -/
theorem populated_counts [Field α] (M : JsMath α) (lo : Nat) (o c : Options α) (d : List Nat) :
    (populated M lo o c d).children.countP SceneObject.isCone = 1 ∧
    (populated M lo o c d).children.countP SceneObject.isLine = 1 ∧
    (populated M lo o c d).children.countP SceneObject.isZone = 100 ∧
    (populated M lo o c d).children.length = 103 := by
  have h := countP_groups (createSpiralAndObservationZones M (lo + 3) o).1.2
  have hl := zones_length M (lo + 3) o
  simp only [populated, List.countP_cons, List.countP_append, h.1, h.2.1, h.2.2, hl,
    List.length_cons, List.length_append, List.length_map, List.countP_nil, List.length_nil]
  simp [SceneObject.isCone, SceneObject.isLine, SceneObject.isZone, createCone]

/-- Identities of the generated objects of a populated scene. -/
theorem populated_ids [Field α] (M : JsMath α) (lo : Nat) (o c : Options α) (d : List Nat) :
    ∀ x ∈ (populated M lo o c d).children, x.isGenerated = true →
      lo ≤ x.id ∧ x.id < lo + 706 := by
  intro x hx hg
  simp only [populated, List.mem_cons, List.mem_append, List.mem_map, List.mem_singleton,
    List.not_mem_nil, or_false] at hx
  rcases hx with rfl | ⟨z, hz, rfl⟩ | rfl | rfl
  · simp [SceneObject.isGenerated] at hg
  · have := zone_ids M (lo + 3) o z hz
    rw [id_group]; omega
  · rw [id_mesh, (cone_ids lo o).1]; omega
  · rw [id_line, line_id]; omega

/-- Identities of the resources of one build. -/
theorem buildResources_bounds [Field α] (M : JsMath α) (lo : Nat) (o : Options α) :
    ∀ r ∈ buildResources M lo o, lo ≤ r ∧ r < lo + 706 := by
  intro r hr
  simp only [buildResources, resourcesOf, Mesh.resources, createSpiral_eq, createCone,
    List.mem_append, List.mem_cons, List.mem_singleton, List.not_mem_nil, or_false,
    List.mem_flatMap, List.mem_map, List.mem_range] at hr
  rcases hr with ((rfl | rfl) | (rfl | rfl)) | ⟨z, ⟨k, hk, rfl⟩, m, hm, hr⟩
  · omega
  · omega
  · omega
  · omega
  · simp only [makeZone, List.mem_cons, List.mem_singleton, List.not_mem_nil, or_false] at hm
    rcases hm with rfl | rfl
    · simp only [] at hr
      rcases hr with rfl | rfl <;> omega
    · simp only [] at hr
      rcases hr with rfl | rfl <;> omega

/-- One build makes 404 geometries and materials. -/
theorem buildResources_length [Field α] (M : JsMath α) (lo : Nat) (o : Options α) :
    (buildResources M lo o).length = 404 := by
  have h : ∀ (f : Nat → Group α) (n : Nat), (∀ k, (f k).children.length = 2) →
      (((List.range n).map f).flatMap (fun z => z.children.flatMap Mesh.resources)).length
        = 4 * n := by
    intro f n hf
    induction n with
    | zero => simp
    | succ n ih =>
      rw [List.range_succ, List.map_append, List.flatMap_append, List.length_append, ih]
      have h2 := hf n
      match hc : (f n).children, h2 with
      | [a, b], _ => simp [hc, Mesh.resources, List.flatMap_cons]; omega
  simp only [buildResources, resourcesOf, createSpiral_eq, List.length_append]
  rw [h]
  · simp [Mesh.resources]
  · intro k; rfl

/-- The resources reachable from the handles of a populated state. -/
theorem populated_resources [Field α] (M : JsMath α) (lo : Nat) (o c : Options α)
    (d : List Nat) : (populated M lo o c d).resources = buildResources M lo o := rfl

/-- Identities in a disposal log. -/
theorem disposedLog_bounds [Field α] (M : JsMath α) (ps : List (Options α)) :
    ∀ (lo : Nat), ∀ r ∈ disposedLog M lo ps, lo ≤ r ∧ r < lo + 706 * ps.length := by
  induction ps with
  | nil => intro lo r hr; simp [disposedLog] at hr
  | cons p ps ih =>
    intro lo r hr
    simp only [disposedLog, List.mem_append] at hr
    simp only [List.length_cons]
    rcases hr with hr | hr
    · have := buildResources_bounds M lo p r hr
      omega
    · have := ih (lo + 706) r hr
      omega

/-- Unfolding of `disposedLog` at a non-empty list. -/
theorem disposedLog_cons [Field α] (M : JsMath α) (lo : Nat) (p : Options α)
    (ps : List (Options α)) :
    disposedLog M lo (p :: ps) = buildResources M lo p ++ disposedLog M (lo + 706) ps := rfl

/-- The disposal log of a concatenation. -/
theorem disposedLog_append [Field α] (M : JsMath α) (ps qs : List (Options α)) :
    ∀ (lo : Nat), disposedLog M lo (ps ++ qs) =
      disposedLog M lo ps ++ disposedLog M (lo + 706 * ps.length) qs := by
  induction ps with
  | nil => intro lo; simp [disposedLog]
  | cons p ps ih =>
    intro lo
    have e : lo + 706 + 706 * ps.length = lo + 706 * (p :: ps).length := by
      simp only [List.length_cons]; omega
    rw [List.cons_append, disposedLog_cons, disposedLog_cons, ih, e, List.append_assoc]

/-- Every zone of one build is made by `makeZone` at a counter of the
build. -/
theorem zone_form [Field α] (M : JsMath α) (n : Nat) (o : Options α) :
    ∀ z ∈ (createSpiralAndObservationZones M n o).1.2,
      ∃ (k : Nat) (p : Vector3 α), k < 100 ∧ z = makeZone (n + 1 + 7 * k) p := by
  intro z hz
  rw [createSpiral_eq] at hz
  simp only [List.mem_map, List.mem_range] at hz
  obtain ⟨k, hk, rfl⟩ := hz
  exact ⟨k, _, hk, rfl⟩

/-- Nodes of the zones: neither cones nor lines, one group each. -/
theorem countP_zone_nodes [Field α] (zs : List (Group α))
    (h : ∀ z ∈ zs, ∃ (n : Nat) (p : Vector3 α), z = makeZone n p) :
    ((zs.map SceneObject.group).flatMap SceneObject.nodes).countP SceneObject.isCone = 0 ∧
    ((zs.map SceneObject.group).flatMap SceneObject.nodes).countP SceneObject.isLine = 0 ∧
    ((zs.map SceneObject.group).flatMap SceneObject.nodes).countP SceneObject.isZone
      = zs.length ∧
    ((zs.map SceneObject.group).flatMap SceneObject.nodes).length = 3 * zs.length := by
  induction zs with
  | nil => simp
  | cons z zs ih =>
    obtain ⟨n, p, rfl⟩ := h _ (List.mem_cons_self _ _)
    have ih2 := ih (fun z hz => h z (List.mem_cons_of_mem _ hz))
    simp only [List.map_cons, List.flatMap_cons, List.countP_append, List.length_append,
      ih2.1, ih2.2.1, ih2.2.2.1, ih2.2.2.2, List.length_cons]
    simp only [SceneObject.nodes, makeZone, List.map_cons, List.map_nil, List.countP_cons,
      List.countP_nil, SceneObject.isCone, SceneObject.isLine, SceneObject.isZone,
      List.length_cons, List.length_nil]
    refine ⟨by simp, by simp, by simp; omega, by omega⟩

/-- The scene graph of a populated state. -/
theorem populated_graph [Field α] (M : JsMath α) (lo : Nat) (o c : Options α) (d : List Nat) :
    (populated M lo o c d).graph = .axesHelper axesHelper ::
      (((createSpiralAndObservationZones M (lo + 3) o).1.2.map
          SceneObject.group).flatMap SceneObject.nodes ++
        [.mesh (createCone lo o).1,
         .line (createSpiralAndObservationZones M (lo + 3) o).1.1]) := by
  simp only [World.graph, populated, List.flatMap_cons, List.flatMap_append, List.flatMap_nil,
    SceneObject.nodes, List.singleton_append, List.cons_append, List.nil_append,
    List.append_nil]

/-- Node counts of the scene graph of a populated state. -/
theorem populated_graph_counts [Field α] (M : JsMath α) (lo : Nat) (o c : Options α)
    (d : List Nat) :
    (populated M lo o c d).graph.countP SceneObject.isCone = 1 ∧
    (populated M lo o c d).graph.countP SceneObject.isLine = 1 ∧
    (populated M lo o c d).graph.countP SceneObject.isZone = 100 ∧
    (populated M lo o c d).graph.length = 303 := by
  have h := countP_zone_nodes (createSpiralAndObservationZones M (lo + 3) o).1.2
    (fun z hz => by
      obtain ⟨k, p, _, e⟩ := zone_form M (lo + 3) o z hz
      exact ⟨_, p, e⟩)
  have hl := zones_length M (lo + 3) o
  rw [populated_graph]
  simp only [List.countP_cons, List.countP_append, h.1, h.2.1, h.2.2.1, h.2.2.2, hl,
    List.length_cons, List.length_append, List.countP_nil, List.length_nil]
  simp [SceneObject.isCone, SceneObject.isLine, SceneObject.isZone, createCone]

/-- Identities of the nodes of a populated scene graph: the axes helper has
identity 2, every other node was made by the build. -/
theorem populated_graph_ids [Field α] (M : JsMath α) (lo : Nat) (o c : Options α)
    (d : List Nat) :
    ∀ x ∈ (populated M lo o c d).graph,
      (x.isGenerated = false ∧ x.id = 2) ∨
      (x.isGenerated = true ∧ lo ≤ x.id ∧ x.id < lo + 706) := by
  intro x hx
  rw [populated_graph] at hx
  simp only [List.mem_cons, List.mem_append, List.mem_flatMap, List.mem_map,
    List.not_mem_nil, or_false] at hx
  rcases hx with rfl | ⟨_, ⟨z, hz, rfl⟩, hx⟩ | rfl | rfl
  · exact Or.inl ⟨rfl, rfl⟩
  · obtain ⟨k, p, hk, rfl⟩ := zone_form M (lo + 3) o z hz
    simp only [SceneObject.nodes, makeZone, List.map_cons, List.map_nil, List.mem_cons,
      List.not_mem_nil, or_false] at hx
    rcases hx with rfl | rfl | rfl
    · exact Or.inr ⟨rfl, by simp only [id_group]; omega, by simp only [id_group]; omega⟩
    · exact Or.inr ⟨rfl, by simp only [id_mesh]; omega, by simp only [id_mesh]; omega⟩
    · exact Or.inr ⟨rfl, by simp only [id_mesh]; omega, by simp only [id_mesh]; omega⟩
  · exact Or.inr ⟨rfl, by rw [id_mesh, (cone_ids lo o).1]; omega,
      by rw [id_mesh, (cone_ids lo o).1]; omega⟩
  · exact Or.inr ⟨rfl, by rw [id_line, line_id]; omega, by rw [id_line, line_id]; omega⟩

/-- One more rebuild, in closed form. -/
theorem rebuild_stateAfter [Field α] (M : JsMath α) (ps : List (Options α)) (p : Options α) :
    rebuild M p (stateAfter M ps) = .ok (stateAfter M (ps ++ [p])) := by
  rcases List.eq_nil_or_concat ps with rfl | ⟨L, b, rfl⟩
  · have e := stateAfter_snoc M [] p
    rw [List.nil_append] at e
    rw [List.nil_append, e]
    exact rebuild_init M p
  · rw [List.concat_eq_append, stateAfter_snoc, stateAfter_snoc,
      rebuild_populated M _ b b p _ (by omega), disposedLog_append]
    have e : 3 + 706 * L.length + 706 = 3 + 706 * (L ++ [b]).length := by
      simp only [List.length_append, List.length_singleton]; omega
    rw [e, disposedLog_cons]
    simp only [disposedLog, List.append_nil]

/-- Generated nodes of a reachable state carry identities in `[3, nextId)`. -/
theorem stateAfter_ids [Field α] (M : JsMath α) (qs : List (Options α)) :
    ∀ x ∈ (stateAfter M qs).graph, x.isGenerated = true →
      3 ≤ x.id ∧ x.id < 3 + 706 * qs.length := by
  intro x hx hg
  rcases List.eq_nil_or_concat qs with rfl | ⟨L, b, rfl⟩
  · simp only [stateAfter, List.getLast?_nil, initWorld, World.graph, List.flatMap_cons,
      List.flatMap_nil, SceneObject.nodes, List.append_nil, List.mem_singleton] at hx
    subst hx
    simp [SceneObject.isGenerated] at hg
  · rw [List.concat_eq_append] at hx ⊢
    rw [stateAfter_snoc] at hx
    simp only [List.length_append, List.length_singleton]
    rcases populated_graph_ids M _ _ _ _ x hx with ⟨h1, _⟩ | ⟨_, h2, h3⟩
    · rw [hg] at h1; cases h1
    · omega

/-- C4: after `N ≥ 1` successive rebuilds from the initial state, with
arbitrary parameters (the calls `ps ++ [p]`), the scene holds exactly one
cone, one spiral line and 100 zones, among its children as well as among all
nodes of the scene graph; every generated node in it was created by the last
rebuild (its identity is not below the counter `wPrev.nextId` at the start of
that rebuild), and no generated node that was in the scene graph after any
earlier rebuild is still in it. -/
theorem rebuild_invariant [Field α] (M : JsMath α) (ps : List (Options α)) (p : Options α) :
    ∃ wPrev w : World α,
      rebuilds M ps initWorld = .ok wPrev ∧
      rebuild M p wPrev = .ok w ∧
      rebuilds M (ps ++ [p]) initWorld = .ok w ∧
      (w.children.countP SceneObject.isCone = 1 ∧
        w.children.countP SceneObject.isLine = 1 ∧
        w.children.countP SceneObject.isZone = 100) ∧
      (w.graph.countP SceneObject.isCone = 1 ∧
        w.graph.countP SceneObject.isLine = 1 ∧
        w.graph.countP SceneObject.isZone = 100) ∧
      (∀ x ∈ w.graph, x.isGenerated = true → wPrev.nextId ≤ x.id) ∧
      (∀ (qs rs : List (Options α)) (wq : World α), ps = qs ++ rs →
        rebuilds M qs initWorld = .ok wq →
        ∀ x ∈ wq.graph, x.isGenerated = true →
          x.id < wPrev.nextId ∧ ∀ y ∈ w.graph, y.id ≠ x.id) := by
  refine ⟨stateAfter M ps, stateAfter M (ps ++ [p]), rebuilds_eq M ps,
    rebuild_stateAfter M ps p, rebuilds_eq M _, ?_⟩
  rw [stateAfter_snoc, stateAfter_nextId]
  have hc := populated_counts M (3 + 706 * ps.length) p p (disposedLog M 3 ps)
  have hg := populated_graph_counts M (3 + 706 * ps.length) p p (disposedLog M 3 ps)
  refine ⟨⟨hc.1, hc.2.1, hc.2.2.1⟩, ⟨hg.1, hg.2.1, hg.2.2.1⟩, ?_, ?_⟩
  · intro x hx hgen
    rcases populated_graph_ids M _ _ _ _ x hx with ⟨h1, _⟩ | ⟨_, h2, _⟩
    · rw [hgen] at h1; cases h1
    · exact h2
  · intro qs rs wq hps hq x hx hgen
    rw [rebuilds_eq] at hq
    injection hq with hq
    subst hq
    have hxid := stateAfter_ids M qs x hx hgen
    have hlen : qs.length ≤ ps.length := by
      rw [hps, List.length_append]; omega
    have hmul : 706 * qs.length ≤ 706 * ps.length := Nat.mul_le_mul_left _ hlen
    refine ⟨by omega, ?_⟩
    intro y hy
    rcases populated_graph_ids M _ _ _ _ y hy with ⟨_, h1⟩ | ⟨_, h2, _⟩
    · omega
    · omega

/-- Witness for C4: the start-up call followed by one slider change, over
the rationals. -/
theorem rebuild_invariant_witness :
    ∃ wPrev w : World ℚ,
      rebuilds ⟨3, fun _ => 1, fun _ => 0⟩ [⟨8, 2⟩] initWorld = .ok wPrev ∧
      rebuild ⟨3, fun _ => 1, fun _ => 0⟩ ⟨9, 2⟩ wPrev = .ok w ∧
      w.graph.countP SceneObject.isZone = 100 ∧
      ∀ x ∈ w.graph, x.isGenerated = true → wPrev.nextId ≤ x.id :=
  match rebuild_invariant (⟨3, fun _ => 1, fun _ => 0⟩ : JsMath ℚ) [⟨8, 2⟩] ⟨9, 2⟩ with
  | ⟨wPrev, w, h1, h2, _, _, h5, h6, _⟩ => ⟨wPrev, w, h1, h2, h5.2.2, h6⟩

/-- C5: after any completed call of `updateScene` (the last of the calls
`ps ++ [p]`), the handles and the scene hold exactly the cone that
`createCone` and the line and zones that `createSpiralAndObservationZones`
produce from the current `options`; the scene holds one cone, one line and
`numPoints / 5` zones. -/
theorem scene_matches_current_parameters [Field α] (M : JsMath α)
    (ps : List (Options α)) (p : Options α) :
    ∃ (w : World α) (lo : Nat),
      rebuilds M (ps ++ [p]) initWorld = .ok w ∧
      w.options = p ∧
      w.cone = some (createCone lo w.options).1 ∧
      w.line = some
        (createSpiralAndObservationZones M (createCone lo w.options).2 w.options).1.1 ∧
      w.observationZones = some
        (createSpiralAndObservationZones M (createCone lo w.options).2 w.options).1.2 ∧
      w.children = .axesHelper axesHelper ::
        ((createSpiralAndObservationZones M (createCone lo w.options).2 w.options).1.2.map
            SceneObject.group ++
          [.mesh (createCone lo w.options).1,
           .line (createSpiralAndObservationZones M (createCone lo w.options).2
             w.options).1.1]) ∧
      w.children.countP SceneObject.isCone = 1 ∧
      w.children.countP SceneObject.isLine = 1 ∧
      w.children.countP SceneObject.isZone = numPoints / 5 := by
  have hc := populated_counts M (3 + 706 * ps.length) p p (disposedLog M 3 ps)
  exact ⟨populated M (3 + 706 * ps.length) p p (disposedLog M 3 ps), 3 + 706 * ps.length,
    rebuilds_snoc M ps p, rfl, rfl, rfl, rfl, rfl, hc.1, hc.2.1, hc.2.2.1⟩

/-- C6: when `updateScene` is called in a populated state `w` (reached by
the calls `ps ++ [p]`), its tear-down disposes every geometry and material
of the preceding build (cone, line, and the sphere and pointer of every
zone) before anything new is built; after any number of further rebuilds
those resources are still disposed, none of the 404 resources of the latest
build is disposed, and the number of resources of a build is always 404. -/
theorem resources_disposed_on_rebuild [Field α] (M : JsMath α)
    (ps : List (Options α)) (p q : Options α) (rs : List (Options α)) :
    ∃ w w1 w2 wN : World α,
      rebuilds M (ps ++ [p]) initWorld = .ok w ∧
      w.resources = resourcesOf (createCone (3 + 706 * ps.length) p).1
        (createSpiralAndObservationZones M (3 + 706 * ps.length + 3) p).1.1
        (createSpiralAndObservationZones M (3 + 706 * ps.length + 3) p).1.2 ∧
      teardown { w with options := q } = .ok w1 ∧
      (∀ r ∈ w.resources, r ∈ w1.disposed) ∧
      w1.nextId = w.nextId ∧
      rebuild M q w = .ok w2 ∧ w2 = build M w1 ∧
      rebuilds M (ps ++ [p] ++ q :: rs) initWorld = .ok wN ∧
      (∀ r ∈ w.resources, r ∈ wN.disposed) ∧
      (∀ r ∈ wN.resources, r ∉ wN.disposed) ∧
      w.resources.length = 404 ∧ wN.resources.length = 404 := by
  have hsplit : ps ++ [p] ++ q :: rs = (ps ++ [p] ++ (q :: rs).dropLast) ++
      [(q :: rs).getLast (List.cons_ne_nil q rs)] := by
    rw [List.append_assoc (ps ++ [p]), List.dropLast_append_getLast]
  have hN := rebuilds_snoc M (ps ++ [p] ++ (q :: rs).dropLast)
    ((q :: rs).getLast (List.cons_ne_nil q rs))
  rw [← hsplit] at hN
  have hw := rebuilds_snoc M ps p
  have ht := teardown_populated M (3 + 706 * ps.length) p q (disposedLog M 3 ps) (by omega)
  refine ⟨_, _, _, _, hw, rfl, ht, ?_, rfl, ?_, rfl, hN, ?_, ?_, ?_, ?_⟩
  · intro r hr
    rw [populated_resources] at hr
    exact List.mem_append_right _ hr
  · rw [rebuild, updateScene]
    have e : ({ populated M (3 + 706 * ps.length) p p (disposedLog M 3 ps) with
        options := q } : World α) = populated M (3 + 706 * ps.length) p q
          (disposedLog M 3 ps) := rfl
    rw [e, ht]
  · intro r hr
    rw [populated_resources] at hr
    simp only [populated]
    rw [List.append_assoc, disposedLog_append, List.singleton_append, disposedLog_cons]
    exact List.mem_append_right _ (List.mem_append_left _ hr)
  · intro r hr hd
    rw [populated_resources] at hr
    simp only [populated] at hd
    have h1 := buildResources_bounds M _ _ r hr
    have h2 := disposedLog_bounds M _ 3 r hd
    omega
  · rw [populated_resources, buildResources_length]
  · rw [populated_resources, buildResources_length]

/-- Witness for C6: start-up, one change of the height, one change of the
radius, over the rationals. -/
theorem resources_disposed_on_rebuild_witness :
    ∃ w wN : World ℚ,
      rebuilds ⟨3, fun _ => 1, fun _ => 0⟩ ([] ++ [⟨8, 2⟩]) initWorld = .ok w ∧
      rebuilds ⟨3, fun _ => 1, fun _ => 0⟩ ([] ++ [⟨8, 2⟩] ++ [⟨9, 2⟩, ⟨9, 3⟩]) initWorld
        = .ok wN ∧
      (∀ r ∈ w.resources, r ∈ wN.disposed) ∧
      (∀ r ∈ wN.resources, r ∉ wN.disposed) ∧
      wN.resources.length = 404 :=
  match resources_disposed_on_rebuild (⟨3, fun _ => 1, fun _ => 0⟩ : JsMath ℚ) []
      ⟨8, 2⟩ ⟨9, 2⟩ [⟨9, 3⟩] with
  | ⟨w, _, _, wN, h1, _, _, _, _, _, _, h8, h9, h10, _, h12⟩ => ⟨w, wN, h1, h8, h9, h10, h12⟩

/-- C9: in the initial state the guard of line 16 evaluates to `false`
without reading a property of an undefined handle, so the tear-down leaves
the state as it is (no removal, no disposal) and the first `updateScene`
succeeds with an empty disposal log; in the state reached by any sequence
`ps` of calls the guard evaluates to `true` exactly when `ps` is not empty,
and the next call succeeds whatever the parameters. -/
theorem updateScene_never_fails [Field α] (M : JsMath α) :
    guard (initWorld : World α) = .ok false ∧
    teardown (initWorld : World α) = .ok initWorld ∧
    (∃ w : World α, updateScene M initWorld = .ok w ∧ w.disposed = [] ∧
      SceneObject.axesHelper axesHelper ∈ w.children) ∧
    ∀ ps : List (Options α), ∃ w : World α,
      rebuilds M ps initWorld = .ok w ∧
      guard w = .ok (decide (0 < ps.length)) ∧
      ∀ p : Options α, ∃ w1 : World α, rebuild M p w = .ok w1 := by
  refine ⟨rfl, rfl, ⟨_, rebuild_init M initWorld.options, rfl, List.mem_cons_self _ _⟩, ?_⟩
  intro ps
  refine ⟨stateAfter M ps, rebuilds_eq M ps, ?_, fun p => ⟨_, rebuild_stateAfter M ps p⟩⟩
  rcases List.eq_nil_or_concat ps with rfl | ⟨L, b, rfl⟩
  · rfl
  · rw [List.concat_eq_append, stateAfter_snoc]
    simp [guard, populated, zones_length]

end ObservationZones
